import Mathlib

/-
Verification of the MERN blogging platform backend (src/backend/server.js)
against its natural-language specification.

The document store (MongoDB via Mongoose) is embedded as explicit lists of
records; each HTTP handler becomes a pure function from the store state and
the request fields to a response and an updated store. Mongoose semantics
that the handlers rely on are modelled explicitly where they matter:
  - findOneAndUpdate / findOneAndDelete act on the first matching document
    and findOneAndUpdate returns the pre-update document (new defaults to
    false);
  - an inclusive select projection leaves every unselected path undefined
    on the returned document (populated paths are added back to the
    projection by Mongoose, selectPopulatedPaths default);
  - in an update document, a bare path outside any operator is treated as
    a set, not an increment;
  - sorting by a path that no document carries compares BSON missing
    values, which tie, so the next sort key decides.
-/

namespace MernBlog

/-- Modelled from the spec: the Schema files (Schema/User.js etc.) are not
part of the provided sources; field names follow spec section 3 and the
paths server.js reads and writes (personal_info.fullname, personal_info.email,
personal_info.password, personal_info.username, personal_info.profile_img).
The password is absent (none) for federated-auth accounts. -/
structure PersonalInfo where
  fullname : String
  email : String
  password : Option String
  username : String
  profile_img : String
deriving Repr, DecidableEq

/-- Modelled from the spec: aggregate counters on a user, written by
server.js at account_info.total_posts and account_info.total_reads. -/
structure AccountInfo where
  total_posts : Int
  total_reads : Int
deriving Repr, DecidableEq

/-- A user document. The field uid stands for the MongoDB _id. -/
structure User where
  uid : String
  personal_info : PersonalInfo
  google_auth : Bool
  account_info : AccountInfo
  blogs : List String
deriving Repr, DecidableEq

/-- Modelled from the spec: the activity subdocument of a blog; the counter
paths are exactly those server.js increments: activity.total_reads,
activity.total_likes, activity.total_comments, activity.total_parent_comments.
No other activity path exists in the schema. -/
structure Activity where
  total_likes : Int
  total_comments : Int
  total_reads : Int
  total_parent_comments : Int
deriving Repr, DecidableEq

/-- The structured content of a blog: an editor document with a list of
blocks (server.js only ever reads content.blocks.length). -/
structure ContentDoc where
  blocks : List String
deriving Repr, DecidableEq

/-- A blog document. The field bid stands for the MongoDB _id; blog_id is
the human-readable identifier. author is the uid of the owning user. -/
structure Blog where
  bid : String
  blog_id : String
  title : String
  des : String
  banner : String
  content : ContentDoc
  tags : List String
  author : String
  activity : Activity
  comments : List String
  draft : Bool
  publishedAt : Int
deriving Repr, DecidableEq

/-- A notification document: ties an action (type is the string like or
comment) to a blog, a recipient (notification_for) and an acting user. -/
structure Notification where
  type : String
  blog : String
  notification_for : String
  user : String
  comment : Option String
deriving Repr, DecidableEq

/-- A comment document (cid stands for the MongoDB _id). -/
structure Comment where
  cid : String
  blog_id : String
  blog_author : String
  comment : String
  commented_by : String
  children : List String
deriving Repr, DecidableEq

/-- The document store: one list per collection. -/
structure DB where
  users : List User
  blogs : List Blog
  notifications : List Notification
  comments : List Comment
deriving Repr, DecidableEq

/-- findOneAndUpdate: apply f to the first element satisfying p, leave the
rest unchanged. -/
def updateFirst (p : α → Bool) (f : α → α) : List α → List α
  | [] => []
  | x :: xs => if p x then f x :: xs else x :: updateFirst p f xs

/-- findOneAndDelete: remove the first element satisfying p. -/
def deleteFirst (p : α → Bool) : List α → List α
  | [] => []
  | x :: xs => if p x then xs else x :: deleteFirst p xs

/-- Stable insertion sort by a boolean comes-before-or-equal relation. -/
def insertLe (le : α → α → Bool) (x : α) : List α → List α
  | [] => [x]
  | y :: ys => if le x y then x :: y :: ys else y :: insertLe le x ys

/-- Sort a list with insertLe. -/
def sortLe (le : α → α → Bool) : List α → List α
  | [] => []
  | x :: xs => insertLe le x (sortLe le xs)

/-- Truthiness of an optional string field of a JSON request body: absent
and the empty string are falsy, every other string is truthy. -/
def jsTruthy : Option String → Bool
  | none => false
  | some s => s.length != 0

/-- The bcrypt one-way hash, modelled as an injective tagging function:
server.js only ever produces hashes with bcrypt.hash and checks them with
bcrypt.compare, so only injectivity and compare-against-hash matter. -/
def bcryptHash (p : String) : String := "bcrypt$" ++ p

/-- bcrypt.compare(plain, stored): none models the error callback path
(the stored value is absent or not a bcrypt hash), some b a successful
comparison with outcome b. -/
def bcryptCompare (plain : String) : Option String → Option Bool
  | none => none
  | some stored => some (bcryptHash plain == stored)

/-- jwt.sign on the payload carrying the user id, modelled as an injective
tagging function of the id. -/
def jwtSign (uid : String) : String := "jwt$" ++ uid

/-- The body formatDatatoSend returns to the frontend (server.js lines
94-105): a fresh signed access token plus profile fields. -/
structure AuthPayload where
  access_token : String
  profile_img : String
  username : String
  fullname : String
deriving Repr, DecidableEq

/-- formatDatatoSend (server.js lines 94-105). -/
def formatDatatoSend (u : User) : AuthPayload :=
  { access_token := jwtSign u.uid
    profile_img := u.personal_info.profile_img
    username := u.personal_info.username
    fullname := u.personal_info.fullname }

/-- The local part of an email: element 0 of the split of the string at
the at sign, that is the longest prefix holding no at sign (the separator
is the single at character, so split at [0] is exactly this prefix, also
when the string holds no separator). -/
def localPart (email : String) : String :=
  ⟨email.data.takeWhile (fun c => c != '@')⟩

/-- generateUsername (server.js lines 109-118): the candidate username is
the part of the email before the at sign; if some existing user already
has it, a five-character random suffix (here the parameter freshSuffix,
standing for nanoid().substring(0,5)) is appended, without re-checking the
suffixed name. existing is the list of usernames present in the users
collection. -/
def generateUsername (existing : List String) (email : String) (freshSuffix : String) : String :=
  let username := localPart email
  let isUsernameNotUnique := existing.contains username
  if isUsernameNotUnique then username ++ freshSuffix else username

/-- Outcome of the signin handler (server.js lines 185-221). -/
inductive SigninResult where
  | emailNotFound
  | compareError
  | incorrectPassword
  | googleAccountError
  | success (payload : AuthPayload)
deriving Repr, DecidableEq

/-- The signin handler (server.js lines 185-221): find the user by email;
403 Email not found when none; for a non-google account compare the
password against the stored bcrypt hash (error path 403, mismatch 403
Incorrect Password, match 200 with formatDatatoSend); for a google-auth
account 403 telling the caller to use google login. -/
def signin (users : List User) (email password : String) : SigninResult :=
  match users.find? (fun u => u.personal_info.email == email) with
  | none => .emailNotFound
  | some user =>
    if !user.google_auth then
      match bcryptCompare password user.personal_info.password with
      | none => .compareError
      | some false => .incorrectPassword
      | some true => .success (formatDatatoSend user)
    else .googleAccountError

/-- Request body of the create-blog handler. -/
structure CreateBlogReq where
  title : String
  des : String
  banner : String
  tags : List String
  content : ContentDoc
  draft : Bool
deriving Repr, DecidableEq

/-- Outcome of the create-blog validation. -/
inductive ValidationResult where
  | rejected (msg : String)
  | accepted
deriving Repr, DecidableEq

/-- The validation prefix of the create-blog handler (server.js lines
425-458): a title is always required; when draft is false the description
must be non-empty and at most 200 characters, the banner non-empty, the
content must have at least one block, and the tag list non-empty with at
most 10 tags. When draft is true those four checks are skipped. -/
def createBlogValidate (r : CreateBlogReq) : ValidationResult :=
  if r.title.length == 0 then
    .rejected "You must provide a title"
  else if !r.draft then
    if r.des.length == 0 || r.des.length > 200 then
      .rejected "You must provide blog description under 200 characters"
    else if r.banner.length == 0 then
      .rejected "You must provide blog banner to publish it"
    else if r.content.blocks.length == 0 then
      .rejected "There must be some blog content to publish it"
    else if r.tags.length == 0 || r.tags.length > 10 then
      .rejected "Provide tags in order to publish the blog, Maximum is 10"
    else .accepted
  else .accepted

/-- Whether a validation outcome is a rejection. -/
def ValidationResult.isRejected : ValidationResult → Bool
  | .rejected _ => true
  | .accepted => false

/-- The select projection of the get-blog handler (server.js line 519): the
space-separated field string passed to select, as a list of paths. -/
def getBlogSelect : List String :=
  ["title", "des", "content", "banner", "activity", "publishedAt", "blog_id", "tags"]

/-- The draft field of the document the get-blog query resolves with: an
inclusive select projection leaves every unselected path undefined, so the
value is some of the stored flag only when draft is among the selected
paths, and none (undefined) otherwise. -/
def projectedDraft (b : Blog) : Option Bool :=
  if "draft" ∈ getBlogSelect then some b.draft else none

/-- Truthiness of a possibly-undefined boolean field: undefined is falsy. -/
def truthy : Option Bool → Bool
  | none => false
  | some v => v

/-- Bump activity.total_reads of a blog by k. -/
def incReads (k : Int) (b : Blog) : Blog :=
  { b with activity := { b.activity with total_reads := b.activity.total_reads + k } }

/-- Bump account_info.total_reads of a user by k. -/
def incUserReads (k : Int) (u : User) : User :=
  { u with account_info := { u.account_info with total_reads := u.account_info.total_reads + k } }

/-- Response of the get-blog handler. -/
inductive GetBlogResponse where
  | serverError
  | draftError
  | ok (b : Blog)
deriving Repr, DecidableEq

/-- Response plus the document store after the handler ran. -/
structure GetBlogOutcome where
  response : GetBlogResponse
  db : DB
deriving Repr, DecidableEq

/-- The get-blog handler (server.js lines 512-538). incrementVal is 1
unless mode is edit. findOneAndUpdate adds incrementVal to the total_reads
of the first blog matching blog_id; when no blog matches, the handler
dereferences a null document and the rejection surfaces as a 500
(serverError). The author is populated and the author user, found by
username, gets the same increment on account_info.total_reads. The draft
guard then tests the draft field of the projected document (projectedDraft)
against the draft flag of the request; when it fires the handler answers
500 you cannot access draft blogs, otherwise 200 with the blog. -/
def getBlog (db : DB) (blog_id : String) (draftFlag : Bool) (mode : String) : GetBlogOutcome :=
  let incrementVal : Int := if mode != "edit" then 1 else 0
  match db.blogs.find? (fun b => b.blog_id == blog_id) with
  | none => { response := .serverError, db := db }
  | some blog =>
    let blogs := updateFirst (fun b => b.blog_id == blog_id) (incReads incrementVal) db.blogs
    match db.users.find? (fun u => u.uid == blog.author) with
    | none => { response := .serverError, db := { db with blogs := blogs } }
    | some au =>
      let users := updateFirst
        (fun u => u.personal_info.username == au.personal_info.username)
        (incUserReads incrementVal) db.users
      let db2 : DB := { db with blogs := blogs, users := users }
      if truthy (projectedDraft blog) && !draftFlag then
        { response := .draftError, db := db2 }
      else
        { response := .ok blog, db := db2 }

/-- activity.total_reads of the first blog with the given blog_id. -/
def blogReads (db : DB) (blog_id : String) : Option Int :=
  (db.blogs.find? (fun b => b.blog_id == blog_id)).map (fun b => b.activity.total_reads)

/-- account_info.total_reads of the first user with the given username. -/
def userReads (db : DB) (username : String) : Option Int :=
  (db.users.find? (fun u => u.personal_info.username == username)).map
    (fun u => u.account_info.total_reads)

/-- Bump activity.total_likes of a blog by k. -/
def incLikes (k : Int) (b : Blog) : Blog :=
  { b with activity := { b.activity with total_likes := b.activity.total_likes + k } }

/-- The like notification written by the like-blog handler. -/
def mkLikeNotif (bid author user_id : String) : Notification :=
  { type := "like", blog := bid, notification_for := author, user := user_id, comment := none }

/-- The filter of the isliked-by-user query and of the findOneAndDelete in
the like-blog handler: a like-type notification by user_id on the blog. -/
def isLikeNotifFor (user_id bid : String) (n : Notification) : Bool :=
  n.user == user_id && n.blog == bid && n.type == "like"

/-- The isliked-by-user handler (server.js lines 573-585):
Notification.exists on user, type like, blog. -/
def islikedByUser (db : DB) (user_id bid : String) : Bool :=
  db.notifications.any (isLikeNotifFor user_id bid)

/-- The like-blog handler (server.js lines 540-571). islikedFlag is the
islikedByUser boolean of the request body. incrementVal is 1 when the flag
is false and -1 when it is true, added to activity.total_likes of the
first blog matching the id. When the flag is false a like notification
addressed to the author of the pre-update document is saved (when no blog
matches, the null dereference of blog.author prevents the save); when the
flag is true the first matching like notification is deleted. -/
def likeBlog (db : DB) (user_id bid : String) (islikedFlag : Bool) : DB :=
  let incrementVal : Int := if !islikedFlag then 1 else -1
  let blogs := updateFirst (fun b => b.bid == bid) (incLikes incrementVal) db.blogs
  if !islikedFlag then
    match db.blogs.find? (fun b => b.bid == bid) with
    | none => { db with blogs := blogs }
    | some blog =>
      { db with blogs := blogs
                notifications := db.notifications ++ [mkLikeNotif bid blog.author user_id] }
  else
    { db with blogs := blogs
              notifications := deleteFirst (isLikeNotifFor user_id bid) db.notifications }

/-- One honest like toggle: the client first asks isliked-by-user and then
posts like-blog with that flag, so the liked state is determined by the
presence or absence of a like-type notification for the pair. -/
def likeToggle (db : DB) (user_id bid : String) : DB :=
  likeBlog db user_id bid (islikedByUser db user_id bid)

/-- activity.total_likes of the first blog with the given id. -/
def blogLikes (db : DB) (bid : String) : Option Int :=
  (db.blogs.find? (fun b => b.bid == bid)).map (fun b => b.activity.total_likes)

/-- Outcome of the add-comment handler: the response (rejection or the
created comment), the store, and the notification written, when one is. -/
structure AddCommentOutcome where
  rejected : Bool
  db : DB
  notif : Option Notification
deriving Repr, DecidableEq

/-- The comment notification written by the add-comment handler: the
recipient is the blog_author value of the request body. -/
def mkCommentNotif (bid blog_author user_id cid : String) : Notification :=
  { type := "comment", blog := bid, notification_for := blog_author
    user := user_id, comment := some cid }

/-- The add-comment handler (server.js lines 587-629). An empty comment is
rejected with 403. Otherwise a comment document is saved, and the first
blog matching the id is updated with the update document consisting of a
push of the comment id onto comments, an increment of
activity.total_comments by 1, and the bare path
activity.total_parent_comments outside any operator with value 1, which
Mongoose treats as a set to 1. A comment notification addressed to the
blog_author of the request body is saved. newCid models the fresh MongoDB
id of the saved comment. -/
def addComment (db : DB) (user_id bid commentText blog_author newCid : String) :
    AddCommentOutcome :=
  if commentText.length == 0 then
    { rejected := true, db := db, notif := none }
  else
    let commentObj : Comment :=
      { cid := newCid, blog_id := bid, blog_author := blog_author
        comment := commentText, commented_by := user_id, children := [] }
    let blogs := updateFirst (fun b => b.bid == bid)
      (fun b => { b with
        comments := b.comments ++ [newCid]
        activity := { b.activity with
          total_comments := b.activity.total_comments + 1
          total_parent_comments := 1 } }) db.blogs
    let notif := mkCommentNotif bid blog_author user_id newCid
    { rejected := false
      db := { db with comments := db.comments ++ [commentObj], blogs := blogs
                      notifications := db.notifications ++ [notif] }
      notif := some notif }

/-- activity.total_comments of the first blog with the given id. -/
def blogTotalComments (db : DB) (bid : String) : Option Int :=
  (db.blogs.find? (fun b => b.bid == bid)).map (fun b => b.activity.total_comments)

/-- activity.total_parent_comments of the first blog with the given id. -/
def blogParentComments (db : DB) (bid : String) : Option Int :=
  (db.blogs.find? (fun b => b.bid == bid)).map (fun b => b.activity.total_parent_comments)

/-- The value a blog document carries at a dotted sort path, none when the
schema defines no such path (BSON missing). Modelled from the spec: the
Schema/Blog.js file is not among the provided sources; the schema paths
are those of the Blog structure above, taken from spec section 3 and from
the paths server.js itself reads and writes. In particular
activity.total_read (without the final s) is not a schema path and is
missing on every document. -/
def blogSortField (b : Blog) (path : String) : Option Int :=
  if path == "activity.total_likes" then some b.activity.total_likes
  else if path == "activity.total_comments" then some b.activity.total_comments
  else if path == "activity.total_reads" then some b.activity.total_reads
  else if path == "activity.total_parent_comments" then some b.activity.total_parent_comments
  else if path == "publishedAt" then some b.publishedAt
  else none

/-- BSON comparison of a possibly-missing numeric value: missing sorts
below every number, numbers compare as integers. -/
def bsonCmp : Option Int → Option Int → Ordering
  | none, none => .eq
  | none, some _ => .lt
  | some _, none => .gt
  | some x, some y => compare x y

/-- Compare two blogs by a list of sort paths, all descending (every key
of the trending sort document is -1); ties fall through to the next path. -/
def cmpPathsDesc (paths : List String) (a b : Blog) : Ordering :=
  match paths with
  | [] => .eq
  | p :: rest =>
    match bsonCmp (blogSortField b p) (blogSortField a p) with
    | .eq => cmpPathsDesc rest a b
    | o => o

/-- The sort document of the trending-blogs handler (server.js line 322):
activity.total_read, then activity.total_likes, then publishedAt, each
descending. -/
def trendingSortPaths : List String :=
  ["activity.total_read", "activity.total_likes", "publishedAt"]

/-- The trending-blogs handler (server.js lines 318-333): the non-draft
blogs, sorted by the trending sort document, limited to 5. -/
def trendingBlogs (blogs : List Blog) : List Blog :=
  (sortLe (fun a b => !(cmpPathsDesc trendingSortPaths a b == Ordering.gt))
    (blogs.filter (fun b => !b.draft))).take 5

/-- Request body of the search-blogs handler. -/
structure SearchReq where
  tag : Option String
  query : Option String
  author : Option String
  page : Nat
  limit : Option Nat
  eliminate_blog : Option String
deriving Repr, DecidableEq

/-- The three shapes the search-blogs filter can take. -/
inductive FindQuery where
  | byTag (tag : String) (eliminate : Option String)
  | byQuery (q : String)
  | byAuthor (a : String)
deriving Repr, DecidableEq

/-- The findQuery construction of the search-blogs handler (server.js
lines 338-348): a truthy tag wins, then a truthy query, then a truthy
author; with none of the three the variable is left undefined (none). -/
def buildFindQuery (req : SearchReq) : Option FindQuery :=
  if jsTruthy req.tag then some (.byTag (req.tag.getD "") req.eliminate_blog)
  else if jsTruthy req.query then some (.byQuery (req.query.getD ""))
  else if jsTruthy req.author then some (.byAuthor (req.author.getD ""))
  else none

/-- Case-insensitive substring test on the character lists of the two
strings (the handler builds new RegExp(query, i) and MongoDB regex-matches
the title against it; for a pattern without metacharacters that is a
case-insensitive substring test). -/
def charsContain (needle : List Char) : List Char → Bool
  | [] => needle.isEmpty
  | c :: cs => List.isPrefixOf needle (c :: cs) || charsContain needle cs

/-- Case-insensitive substring match of q inside s. -/
def titleMatches (q s : String) : Bool :=
  charsContain (q.toLower.toList) (s.toLower.toList)

/-- Whether a blog matches the (possibly undefined) search filter.
Blog.find with an undefined filter matches every document. The tag filter
requires the tag among tags, draft false, and blog_id different from
eliminate_blog (an absent eliminate_blog excludes nothing); the query
filter requires draft false and a title regex match; the author filter
requires the author and draft false. -/
def blogMatches : Option FindQuery → Blog → Bool
  | none, _ => true
  | some (.byTag t elim), b =>
    b.tags.contains t && b.draft == false &&
      (match elim with
       | none => true
       | some e => b.blog_id != e)
  | some (.byQuery q), b => b.draft == false && titleMatches q b.title
  | some (.byAuthor a), b => b.author == a && b.draft == false

/-- The search-blogs handler (server.js lines 335-364): filter by the
built findQuery, sort by publishedAt descending, skip (page-1)*maxLimit
documents and return at most maxLimit, where maxLimit is the limit of the
request when truthy and 2 otherwise. -/
def searchBlogs (db : DB) (req : SearchReq) : List Blog :=
  let findQuery := buildFindQuery req
  let maxLimit := match req.limit with
    | some l => if l != 0 then l else 2
    | none => 2
  ((sortLe (fun a b => !(compare b.publishedAt a.publishedAt == Ordering.gt))
      (db.blogs.filter (blogMatches findQuery))).drop ((req.page - 1) * maxLimit)).take maxLimit

/-! Concrete sample documents used to evaluate the handlers. -/

/-- All-zero activity counters, the state of a fresh blog. -/
def activity0 : Activity :=
  { total_likes := 0, total_comments := 0, total_reads := 0, total_parent_comments := 0 }

/-- A local-password user owning the sample blog. -/
def userAlice : User :=
  { uid := "u1"
    personal_info :=
      { fullname := "Alice Doe", email := "alice@x.com"
        password := some (bcryptHash "Abcde1"), username := "alice", profile_img := "img-a" }
    google_auth := false
    account_info := { total_posts := 1, total_reads := 0 }
    blogs := ["bidA"] }

/-- A federated-auth user: no password, google_auth true. -/
def userGoogle : User :=
  { uid := "u2"
    personal_info :=
      { fullname := "Gale Roe", email := "gale@x.com"
        password := none, username := "gale", profile_img := "img-g" }
    google_auth := true
    account_info := { total_posts := 0, total_reads := 0 }
    blogs := [] }

/-- A draft blog authored by userAlice. -/
def blogDraft : Blog :=
  { bid := "bidA", blog_id := "b1", title := "My draft", des := "", banner := ""
    content := { blocks := [] }, tags := [], author := "u1", activity := activity0
    comments := [], draft := true, publishedAt := 3 }

/-- A store holding userAlice and her draft blog. -/
def dbDraft : DB :=
  { users := [userAlice], blogs := [blogDraft], notifications := [], comments := [] }

/-- A published blog whose total_parent_comments already stands at 5. -/
def blogParent5 : Blog :=
  { blogDraft with
    draft := false
    des := "d"
    banner := "bn"
    tags := ["t"]
    activity := { activity0 with total_comments := 2, total_parent_comments := 5 } }

/-- A store holding the blog with 5 parent comments. -/
def dbParent5 : DB :=
  { users := [userAlice], blogs := [blogParent5], notifications := [], comments := [] }

/-- A published blog with many reads and few likes. -/
def blogHighReads : Blog :=
  { blogDraft with
    bid := "bidR"
    blog_id := "high-reads"
    draft := false
    activity := { activity0 with total_reads := 100, total_likes := 1 }
    publishedAt := 10 }

/-- A published blog with few reads and more likes. -/
def blogHighLikes : Blog :=
  { blogDraft with
    bid := "bidL"
    blog_id := "high-likes"
    draft := false
    activity := { activity0 with total_reads := 1, total_likes := 2 }
    publishedAt := 20 }

/-- A search request carrying none of the tag, query and author filters. -/
def reqNoFilter : SearchReq :=
  { tag := none, query := none, author := none, page := 1, limit := some 5
    eliminate_blog := none }

/-! Helper lemmas about the store primitives. -/

/-- updateFirst commutes with find? on the same predicate when the update
does not change whether a document matches. -/
theorem updateFirst_find_map (p : α → Bool) (f : α → α) (hp : ∀ x, p (f x) = p x)
    (l : List α) : (updateFirst p f l).find? p = (l.find? p).map f := by
  induction l with
  | nil => rfl
  | cons x xs ih =>
    cases hx : p x with
    | true =>
      simp only [updateFirst, hx, if_true]
      rw [List.find?_cons_of_pos _ ((hp x).trans hx), List.find?_cons_of_pos _ hx]
      rfl
    | false =>
      simp only [updateFirst, hx, if_false, Bool.false_eq_true]
      rw [List.find?_cons_of_neg _ (by simp [hx]), List.find?_cons_of_neg _ (by simp [hx])]
      exact ih

/-- Deleting the first match removes exactly one match when one exists. -/
theorem countP_deleteFirst (p : α → Bool) :
    ∀ l : List α, l.any p = true → (deleteFirst p l).countP p + 1 = l.countP p := by
  intro l
  induction l with
  | nil => intro h; simp at h
  | cons x xs ih =>
    intro h
    cases hx : p x with
    | true => simp [deleteFirst, hx, List.countP_cons, hx]
    | false =>
      have hxs : xs.any p = true := by simpa [hx] using h
      simp only [deleteFirst, hx, Bool.false_eq_true, if_false]
      simp [List.countP_cons, hx, ← ih hxs]

/-- A list with zero matches has no match. -/
theorem any_eq_false_of_countP_eq_zero (p : α → Bool) (l : List α)
    (h : l.countP p = 0) : l.any p = false := by
  rw [List.any_eq_false]
  intro x hx
  exact (List.countP_eq_zero.mp h) x hx

/-- In every branch, like-blog updates the first matching blog with the
signed like increment. -/
theorem likeBlog_blogs (db : DB) (u bid : String) (flag : Bool) :
    (likeBlog db u bid flag).blogs =
      updateFirst (fun b => b.bid == bid) (incLikes (if !flag then 1 else -1)) db.blogs := by
  cases flag with
  | false => cases h : db.blogs.find? (fun b => b.bid == bid) <;> simp [likeBlog, h]
  | true => simp [likeBlog]

/-- The like counter of the blog after like-blog, expressed over the
pre-state. -/
theorem blogLikes_likeBlog (db : DB) (u bid : String) (flag : Bool) :
    blogLikes (likeBlog db u bid flag) bid =
      (db.blogs.find? (fun b => b.bid == bid)).map
        (fun b => b.activity.total_likes + if !flag then 1 else -1) := by
  unfold blogLikes
  rw [likeBlog_blogs,
    updateFirst_find_map (fun b => b.bid == bid)
      (incLikes (if !flag then 1 else -1)) (fun b => rfl) db.blogs]
  cases db.blogs.find? (fun b => b.bid == bid) <;> rfl

/-- The notification written on a like matches the isliked-by-user filter. -/
theorem isLikeNotifFor_mkLikeNotif (u bid author : String) :
    isLikeNotifFor u bid (mkLikeNotif bid author u) = true := by
  simp [isLikeNotifFor, mkLikeNotif]

/-- After liking an existing blog, the pair reads as liked. -/
theorem islikedByUser_after_like (db : DB) (u bid : String) (blog : Blog)
    (hfind : db.blogs.find? (fun b => b.bid == bid) = some blog) :
    islikedByUser (likeBlog db u bid false) u bid = true := by
  simp [islikedByUser, likeBlog, hfind, List.any_append, isLikeNotifFor_mkLikeNotif]

/-- After unliking, a pair with at most one like notification reads as not
liked. -/
theorem islikedByUser_after_unlike (db : DB) (u bid : String)
    (hcount : db.notifications.countP (isLikeNotifFor u bid) ≤ 1)
    (hliked : islikedByUser db u bid = true) :
    islikedByUser (likeBlog db u bid true) u bid = false := by
  have hnotifs : (likeBlog db u bid true).notifications =
      deleteFirst (isLikeNotifFor u bid) db.notifications := by
    simp [likeBlog]
  have hany : db.notifications.any (isLikeNotifFor u bid) = true := hliked
  have hdel := countP_deleteFirst (isLikeNotifFor u bid) db.notifications hany
  have hzero : (deleteFirst (isLikeNotifFor u bid) db.notifications).countP
      (isLikeNotifFor u bid) = 0 := by omega
  show (likeBlog db u bid true).notifications.any (isLikeNotifFor u bid) = false
  rw [hnotifs]
  exact any_eq_false_of_countP_eq_zero _ _ hzero

/-- Under a found blog and author, get-blog leaves the store with the blog
and author read counters bumped by incrementVal, whatever the response. -/
theorem getBlog_db_eq (db : DB) (blog_id : String) (draftFlag : Bool) (mode : String)
    (blog : Blog) (au : User)
    (hb : db.blogs.find? (fun b => b.blog_id == blog_id) = some blog)
    (ha : db.users.find? (fun u => u.uid == blog.author) = some au) :
    (getBlog db blog_id draftFlag mode).db =
      { db with
        blogs := updateFirst (fun b => b.blog_id == blog_id)
          (incReads (if mode != "edit" then 1 else 0)) db.blogs
        users := updateFirst (fun u => u.personal_info.username == au.personal_info.username)
          (incUserReads (if mode != "edit" then 1 else 0)) db.users } := by
  unfold getBlog
  simp only [hb, ha]
  split <;> rfl

/-- C1: the source intends a draft blog fetched without the draft flag to
be refused (the guard at server.js line 529 and its error message), which
is what the claim and the spec state; but the select projection at line
519 omits the draft path, so the draft field of the fetched document is
undefined, the guard condition is always falsy, and the fetch succeeds
with the blog both without and with the draft flag. This theorem evaluates
get-blog at the failing input: a draft blog requested with the draft flag
unset. -/
theorem getBlog_draft_guard_never_fires :
    blogDraft.draft = true ∧
    projectedDraft blogDraft = none ∧
    (getBlog dbDraft "b1" false "read").response = GetBlogResponse.ok blogDraft ∧
    (getBlog dbDraft "b1" true "read").response = GetBlogResponse.ok blogDraft := by
  decide

/-- C2: toggling like twice in succession by the same user on the same
blog, the liked state being read off the presence or absence of a
like-type notification for the pair, restores the total_likes counter of
the blog, provided the store carries at most one like notification for
the pair (which presence-or-absence liked state presumes). -/
theorem like_toggle_round_trip (db : DB) (user_id bid : String)
    (hcount : db.notifications.countP (isLikeNotifFor user_id bid) ≤ 1) :
    blogLikes (likeToggle (likeToggle db user_id bid) user_id bid) bid = blogLikes db bid := by
  unfold likeToggle
  cases hflag : islikedByUser db user_id bid with
  | true =>
    rw [islikedByUser_after_unlike db user_id bid hcount hflag]
    rw [blogLikes_likeBlog, likeBlog_blogs,
      updateFirst_find_map (fun b => b.bid == bid)
        (incLikes (if !true then 1 else -1)) (fun b => rfl) db.blogs]
    unfold blogLikes
    cases db.blogs.find? (fun b => b.bid == bid) with
    | none => rfl
    | some b =>
      simp [incLikes]
  | false =>
    cases hfind : db.blogs.find? (fun b => b.bid == bid) with
    | none =>
      rw [blogLikes_likeBlog, likeBlog_blogs,
        updateFirst_find_map (fun b => b.bid == bid)
          (incLikes (if !false then 1 else -1)) (fun b => rfl) db.blogs, hfind]
      unfold blogLikes
      rw [hfind]
      rfl
    | some blog =>
      rw [islikedByUser_after_like db user_id bid blog hfind]
      rw [blogLikes_likeBlog, likeBlog_blogs,
        updateFirst_find_map (fun b => b.bid == bid)
          (incLikes (if !false then 1 else -1)) (fun b => rfl) db.blogs, hfind]
      unfold blogLikes
      rw [hfind]
      simp [incLikes]

/-- C2 witness: the round trip evaluated on the sample store: no like
notification is present, so the pair starts unliked. -/
theorem like_toggle_round_trip_witness :
    blogLikes (likeToggle (likeToggle dbDraft "u9" "bidA") "u9" "bidA") "bidA" =
      blogLikes dbDraft "bidA" :=
  like_toggle_round_trip dbDraft "u9" "bidA" (by decide)

/-- C3 counterexample: on a draft blog fetched with mode different from
edit, both total_reads counters move from 0 to 1, though the claim says a
draft leaves them unchanged. -/
theorem getBlog_draft_still_counts_reads :
    blogDraft.draft = true ∧
    blogReads dbDraft "b1" = some 0 ∧
    userReads dbDraft "alice" = some 0 ∧
    blogReads (getBlog dbDraft "b1" false "read").db "b1" = some 1 ∧
    userReads (getBlog dbDraft "b1" false "read").db "alice" = some 1 ∧
    blogReads (getBlog dbDraft "b1" false "read").db "b1" ≠ blogReads dbDraft "b1" := by
  decide

/-- C3 amended: when the blog and its author are found, the total_reads
counter of the blog and the account_info.total_reads of the author each
move by exactly 1 when mode is not edit and are unchanged when mode is
edit, regardless of the draft status of the blog and of the draft flag of
the request. -/
theorem getBlog_read_counters (db : DB) (blog_id : String) (draftFlag : Bool) (mode : String)
    (blog : Blog) (au : User)
    (hb : db.blogs.find? (fun b => b.blog_id == blog_id) = some blog)
    (ha : db.users.find? (fun u => u.uid == blog.author) = some au) :
    (mode ≠ "edit" →
      blogReads (getBlog db blog_id draftFlag mode).db blog_id
          = (blogReads db blog_id).map (fun x => x + 1) ∧
      userReads (getBlog db blog_id draftFlag mode).db au.personal_info.username
          = (userReads db au.personal_info.username).map (fun x => x + 1)) ∧
    (mode = "edit" →
      blogReads (getBlog db blog_id draftFlag mode).db blog_id = blogReads db blog_id ∧
      userReads (getBlog db blog_id draftFlag mode).db au.personal_info.username
          = userReads db au.personal_info.username) := by
  rw [getBlog_db_eq db blog_id draftFlag mode blog au hb ha]
  constructor
  · intro hmode
    have hm : (mode != "edit") = true := bne_iff_ne.mpr hmode
    rw [hm]
    constructor
    · unfold blogReads
      show (List.find? _ (updateFirst _ (incReads 1) db.blogs)).map _ = _
      rw [updateFirst_find_map (fun b => b.blog_id == blog_id)
        (incReads 1) (fun b => rfl) db.blogs]
      cases db.blogs.find? (fun b => b.blog_id == blog_id) <;> rfl
    · unfold userReads
      show (List.find? _ (updateFirst _ (incUserReads 1) db.users)).map _ = _
      rw [updateFirst_find_map
        (fun u => u.personal_info.username == au.personal_info.username)
        (incUserReads 1) (fun u => rfl) db.users]
      cases db.users.find? (fun u => u.personal_info.username == au.personal_info.username) <;>
        rfl
  · intro hmode
    have hm : (mode != "edit") = false := by simp [bne, hmode]
    rw [hm]
    constructor
    · unfold blogReads
      show (List.find? _ (updateFirst _ (incReads 0) db.blogs)).map _ = _
      rw [updateFirst_find_map (fun b => b.blog_id == blog_id)
        (incReads 0) (fun b => rfl) db.blogs]
      cases db.blogs.find? (fun b => b.blog_id == blog_id) with
      | none => rfl
      | some b => simp [incReads]
    · unfold userReads
      show (List.find? _ (updateFirst _ (incUserReads 0) db.users)).map _ = _
      rw [updateFirst_find_map
        (fun u => u.personal_info.username == au.personal_info.username)
        (incUserReads 0) (fun u => rfl) db.users]
      cases db.users.find? (fun u => u.personal_info.username == au.personal_info.username) with
      | none => rfl
      | some u => simp [incUserReads]

/-- C3 witness: the amended statement evaluated on the sample store, in
the non-edit mode. -/
theorem getBlog_read_counters_witness :
    blogReads (getBlog dbDraft "b1" false "read").db "b1"
        = (blogReads dbDraft "b1").map (fun x => x + 1) ∧
    userReads (getBlog dbDraft "b1" false "read").db userAlice.personal_info.username
        = (userReads dbDraft userAlice.personal_info.username).map (fun x => x + 1) :=
  (getBlog_read_counters dbDraft "b1" false "read" blogDraft userAlice
    (by decide) (by decide)).1 (by decide)

/-- Whether a validation outcome equals accepted, as a helper fact:
isRejected is true exactly on the rejected outcomes. -/
theorem isRejected_eq_true_iff (v : ValidationResult) :
    v.isRejected = true ↔ v ≠ ValidationResult.accepted := by
  cases v <;> simp [ValidationResult.isRejected]

/-- C4: with draft false, a create-blog request whose description is empty
or longer than 200 characters, whose banner is empty, whose content has no
blocks, or whose tag list is empty or longer than 10 is rejected; with
draft true none of those checks fire and the outcome is accepted exactly
when the title is non-empty. -/
theorem createBlogValidate_draft_rules (r : CreateBlogReq) :
    (r.draft = false →
      ((r.des.length = 0 ∨ r.des.length > 200 ∨ r.banner.length = 0 ∨
          r.content.blocks.length = 0 ∨ r.tags.length = 0 ∨ r.tags.length > 10) →
        (createBlogValidate r).isRejected = true)) ∧
    (r.draft = true →
      (createBlogValidate r = ValidationResult.accepted ↔ r.title.length ≠ 0)) := by
  constructor
  · intro hdraft hbad
    rw [isRejected_eq_true_iff]
    intro heq
    unfold createBlogValidate at heq
    rw [hdraft] at heq
    by_cases h1 : (r.title.length == 0) = true
    · rw [if_pos h1] at heq
      exact ValidationResult.noConfusion heq
    · rw [if_neg h1, if_pos (show (!false) = true from rfl)] at heq
      by_cases h2 : (r.des.length == 0 || decide (r.des.length > 200)) = true
      · rw [if_pos h2] at heq
        exact ValidationResult.noConfusion heq
      · rw [if_neg h2] at heq
        by_cases h3 : (r.banner.length == 0) = true
        · rw [if_pos h3] at heq
          exact ValidationResult.noConfusion heq
        · rw [if_neg h3] at heq
          by_cases h4 : (r.content.blocks.length == 0) = true
          · rw [if_pos h4] at heq
            exact ValidationResult.noConfusion heq
          · rw [if_neg h4] at heq
            by_cases h5 : (r.tags.length == 0 || decide (r.tags.length > 10)) = true
            · rw [if_pos h5] at heq
              exact ValidationResult.noConfusion heq
            · simp only [Bool.or_eq_true, beq_iff_eq, decide_eq_true_eq, not_or]
                at h2 h3 h4 h5
              rcases hbad with h | h | h | h | h | h <;> omega
  · intro hdraft
    unfold createBlogValidate
    rw [hdraft]
    by_cases ht : r.title.length = 0
    · simp [ht]
    · simp [ht]

/-- C4 witness: a publish request with an empty tag list is rejected, and
the same request as a draft is accepted. -/
theorem createBlogValidate_draft_rules_witness :
    (createBlogValidate
      { title := "T", des := "d", banner := "bn", tags := [],
        content := { blocks := ["p"] }, draft := false }).isRejected = true ∧
    createBlogValidate
      { title := "T", des := "d", banner := "bn", tags := [],
        content := { blocks := ["p"] }, draft := true } = ValidationResult.accepted :=
  ⟨(createBlogValidate_draft_rules
      { title := "T", des := "d", banner := "bn", tags := [],
        content := { blocks := ["p"] }, draft := false }).1 rfl
      (Or.inr (Or.inr (Or.inr (Or.inr (Or.inl rfl))))),
   ((createBlogValidate_draft_rules
      { title := "T", des := "d", banner := "bn", tags := [],
        content := { blocks := ["p"] }, draft := true }).2 rfl).mpr (by decide)⟩

/-- C5: signin answers emailNotFound when no user carries the email; for a
found non-google user it answers incorrectPassword when the password does
not match the stored hash and success with the session payload (whose
access_token is the signed user id) when it matches; for a found
google-auth user it answers the wrong-provider error. -/
theorem signin_cases (users : List User) (email password : String) :
    (users.find? (fun u => u.personal_info.email == email) = none →
      signin users email password = SigninResult.emailNotFound) ∧
    (∀ u, users.find? (fun u => u.personal_info.email == email) = some u →
      u.google_auth = true →
      signin users email password = SigninResult.googleAccountError) ∧
    (∀ u, users.find? (fun u => u.personal_info.email == email) = some u →
      u.google_auth = false →
      bcryptCompare password u.personal_info.password = some false →
      signin users email password = SigninResult.incorrectPassword) ∧
    (∀ u, users.find? (fun u => u.personal_info.email == email) = some u →
      u.google_auth = false →
      bcryptCompare password u.personal_info.password = some true →
      signin users email password = SigninResult.success (formatDatatoSend u)) := by
  refine ⟨?_, ?_, ?_, ?_⟩
  · intro h
    unfold signin
    rw [h]
  · intro u hf hg
    unfold signin
    rw [hf]
    simp [hg]
  · intro u hf hg hc
    unfold signin
    rw [hf]
    simp [hg, hc]
  · intro u hf hg hc
    unfold signin
    rw [hf]
    simp [hg, hc]

/-- C5 witness: the four cases evaluated on a two-user store: unknown
email, google account, wrong password, and correct password. -/
theorem signin_cases_witness :
    signin [userAlice, userGoogle] "nobody@x.com" "Abcde1" = SigninResult.emailNotFound ∧
    signin [userAlice, userGoogle] "gale@x.com" "Abcde1" = SigninResult.googleAccountError ∧
    signin [userAlice, userGoogle] "alice@x.com" "Wrong1" = SigninResult.incorrectPassword ∧
    signin [userAlice, userGoogle] "alice@x.com" "Abcde1"
        = SigninResult.success (formatDatatoSend userAlice) :=
  ⟨(signin_cases [userAlice, userGoogle] "nobody@x.com" "Abcde1").1 (by decide),
   (signin_cases [userAlice, userGoogle] "gale@x.com" "Abcde1").2.1 userGoogle
      (by decide) (by decide),
   (signin_cases [userAlice, userGoogle] "alice@x.com" "Wrong1").2.2.1 userAlice
      (by decide) (by decide) (by decide),
   (signin_cases [userAlice, userGoogle] "alice@x.com" "Abcde1").2.2.2 userAlice
      (by decide) (by decide) (by decide)⟩

/-- C6 counterexample: with existing usernames shik and shikAB123, the
email shik at gmail and the random suffix AB123, generateUsername returns
shikAB123, which is already an existing username: the produced username is
not unique. -/
theorem generateUsername_collision :
    ["shik", "shikAB123"].contains
      (generateUsername ["shik", "shikAB123"] "shik@gmail.com" "AB123") = true := by
  decide

/-- C6 amended: the produced username is unique among the existing ones
whenever the local-part extended by the chosen random suffix is not itself
an existing username; the code checks uniqueness of the bare local-part
only and appends the suffix without re-checking, so freshness of the
suffixed name is needed. -/
theorem generateUsername_fresh (existing : List String) (email freshSuffix : String)
    (h : existing.contains (localPart email ++ freshSuffix) = false) :
    existing.contains (generateUsername existing email freshSuffix) = false := by
  have hres : generateUsername existing email freshSuffix =
      if existing.contains (localPart email) = true then localPart email ++ freshSuffix
      else localPart email := rfl
  cases hc : existing.contains (localPart email) with
  | true =>
    rw [hres, hc, if_pos rfl]
    exact h
  | false =>
    rw [hres, hc, if_neg Bool.false_ne_true]
    exact hc

/-- C6 witness: the amended statement evaluated at a taken local-part with
a fresh suffixed name. -/
theorem generateUsername_fresh_witness :
    ["shik"].contains (generateUsername ["shik"] "shik@gmail.com" "Ab1c2") = false :=
  generateUsername_fresh ["shik"] "shik@gmail.com" "Ab1c2" (by decide)

/-- C7: the add-comment update increments activity.total_comments by 1 but
carries activity.total_parent_comments as a bare path outside the
increment operator, so that counter is set to 1 instead of incremented.
Here the code is evaluated at the failing input: a blog whose
total_parent_comments stands at 5 ends at 1, where the claim expects 6;
the comment is appended and total_comments moves 2 to 3 as claimed. -/
theorem addComment_parent_counter_set :
    blogParentComments dbParent5 "bidA" = some 5 ∧
    blogParentComments (addComment dbParent5 "u9" "bidA" "hi" "alice" "c1").db "bidA"
        = some 1 ∧
    blogTotalComments dbParent5 "bidA" = some 2 ∧
    blogTotalComments (addComment dbParent5 "u9" "bidA" "hi" "alice" "c1").db "bidA"
        = some 3 ∧
    (addComment dbParent5 "u9" "bidA" "hi" "alice" "c1").db.comments.length
        = dbParent5.comments.length + 1 := by
  decide

/-- C8: the trending sort document names activity.total_read, while the
schema path carrying the read counter is activity.total_reads, so the
first sort key is missing on every document and ties; the order is decided
by likes and recency, not reads. Here the code is evaluated at the failing
input: of two published blogs, the one with 100 reads and 1 like is
listed after the one with 1 read and 2 likes, where the claim orders by
read count descending first. -/
theorem trendingBlogs_ignores_read_counts :
    (trendingBlogs [blogHighReads, blogHighLikes]).map Blog.blog_id
        = ["high-likes", "high-reads"] ∧
    blogHighReads.activity.total_reads > blogHighLikes.activity.total_reads ∧
    blogHighReads.draft = false ∧
    blogHighLikes.draft = false ∧
    blogSortField blogHighReads "activity.total_read" = none ∧
    blogSortField blogHighLikes "activity.total_read" = none := by
  decide

/-- C9: when the tag, query and author fields of a search-blogs request
are all absent or empty, the findQuery stays undefined, the store filter
matches every blog, drafts included, whereas each of the three named
filters carries the draft false restriction. -/
theorem searchBlogs_no_filter_includes_drafts (req : SearchReq) (db : DB)
    (ht : jsTruthy req.tag = false) (hq : jsTruthy req.query = false)
    (ha : jsTruthy req.author = false) :
    buildFindQuery req = none ∧
    db.blogs.filter (blogMatches (buildFindQuery req)) = db.blogs ∧
    (∀ t e b, blogMatches (some (FindQuery.byTag t e)) b = true → b.draft = false) ∧
    (∀ q b, blogMatches (some (FindQuery.byQuery q)) b = true → b.draft = false) ∧
    (∀ a b, blogMatches (some (FindQuery.byAuthor a)) b = true → b.draft = false) := by
  have hnone : buildFindQuery req = none := by
    unfold buildFindQuery
    rw [ht, hq, ha]
    rfl
  refine ⟨hnone, ?_, ?_, ?_, ?_⟩
  · rw [hnone]
    exact List.filter_eq_self.mpr (fun b _ => rfl)
  · intro t e b h
    simp [blogMatches] at h
    tauto
  · intro q b h
    simp [blogMatches] at h
    tauto
  · intro a b h
    simp [blogMatches] at h
    tauto

/-- C9 witness: the no-filter request on a store holding one draft blog:
the filter is undefined and the draft blog stays in the candidate set. -/
theorem searchBlogs_no_filter_includes_drafts_witness :
    buildFindQuery reqNoFilter = none ∧
    dbDraft.blogs.filter (blogMatches (buildFindQuery reqNoFilter)) = dbDraft.blogs :=
  ⟨(searchBlogs_no_filter_includes_drafts reqNoFilter dbDraft
      (by decide) (by decide) (by decide)).1,
   (searchBlogs_no_filter_includes_drafts reqNoFilter dbDraft
      (by decide) (by decide) (by decide)).2.1⟩

/-- C10: the recipient of the comment notification is always the
blog_author value of the request body, and on a request whose blog_author
differs from the stored author of the blog the notification goes to a user
other than the author: on the sample store the blog is authored by u1 but
the notification lands on mallory. -/
theorem addComment_notifies_request_author :
    (∀ (db : DB) (user_id bid commentText blog_author newCid : String),
      commentText.length ≠ 0 →
      Option.map Notification.notification_for
          (addComment db user_id bid commentText blog_author newCid).notif
        = some blog_author) ∧
    (Option.map Notification.notification_for
        (addComment dbParent5 "u9" "bidA" "hi" "mallory" "c1").notif = some "mallory" ∧
      (dbParent5.blogs.find? (fun b => b.bid == "bidA")).map Blog.author = some "u1" ∧
      ("mallory" : String) ≠ "u1") := by
  constructor
  · intro db user_id bid commentText blog_author newCid h
    unfold addComment
    have hlen : (commentText.length == 0) = false := by
      simpa using h
    rw [hlen]
    rfl
  · refine ⟨by decide, by decide, by decide⟩

/-- C10 witness: the universal part applied at a concrete request whose
blog_author is bob. -/
theorem addComment_notifies_request_author_witness :
    Option.map Notification.notification_for
        (addComment dbParent5 "u9" "bidA" "nice" "bob" "c2").notif = some "bob" :=
  addComment_notifies_request_author.1 dbParent5 "u9" "bidA" "nice" "bob" "c2" (by decide)

end MernBlog
